import Mathlib

/-!
Verification of the transactional request-handling core of the
Personal Account Manager backend (`app/models.py`, `app/database.py`,
`app/main.py`).

The embedding models:
- the two entity records the handlers operate on (`Account`, `Task`,
  from `app/models.py`), with `datetime` readings abstracted to `DT := Nat`
  (each call to `datetime.utcnow()` is an explicit argument);
- the session manager `get_session` (`app/database.py:52-65`) as a state
  transformer over a `Session` holding the durable store (`committed`),
  the session-local view with uncommitted changes (`view`), and a
  `closed` flag for the release of the underlying connection;
- the eight CRUD handlers of `app/main.py` as handler bodies run through
  `get_session`, with a `FailurePlan` parameter mirroring the way the
  test-suite injects `SQLAlchemyError` into individual storage primitives
  (`Session.exec`, `Session.add`, `Session.get`, `Session.delete`,
  `Session.commit`, `Session.refresh`);
- request-body validation (`parseAccount`, `parseTask`): pydantic fills
  declared-field defaults and discards unknown keys, so the wire-level
  `due_date` key of a task payload never reaches a parsed `Task` value.

Library-call semantics adopted by the embedding: `session.add` + commit
inserts the row, with the primary key assigned as max-id + 1 when the
payload id is absent (SQLite rowid assignment) and a duplicate supplied
primary key failing the flush with an integrity error. `session.delete` +
commit: the relationships carry no delete cascade, so at flush the ORM
applies its default "nullify" dependency rule to the loaded children of
the deleted row; `Task.account_id` (`app/models.py:43`) is a
non-nullable foreign key, so deleting an account that any task references
makes the flush emit an UPDATE setting that column to NULL, which fails
with an integrity error (a `SQLAlchemyError`) — the handler answers 500
and nothing is removed. Only an unreferenced account row is actually
deleted. The store is restricted to the two tables the claims touch:
contact, note and attachment tables are empty in every modeled store
(a contact or note referencing a deleted account, or an attachment
referencing a deleted task, would fail the flush the same way; a task
with no attachments and no notes — every modeled task — deletes
cleanly, as `Note.task_id` is nullable and its nullify would succeed).
-/

namespace PAM

/-- Abstract UTC timestamp. Each `datetime.utcnow()` reading in the source
becomes an explicit argument of this type. -/
abbrev DT := Nat

/-- `app/models.py:14-21` — the Account table model (relationship
attributes carry no column and are omitted). -/
structure Account where
  id : Option Nat := none
  name : String
  status : String := "active"
  tags : Option String := none
  owner : Option String := none
  created_at : DT
  updated_at : DT
deriving DecidableEq, Repr

/-- `app/models.py:41-53` — the Task table model. Note the due-date column
is named `due_at`; the model declares no `due_date` field. -/
structure Task where
  id : Option Nat := none
  account_id : Nat
  contact_id : Option Nat := none
  title : String
  description : Option String := none
  due_at : Option DT := none
  status : String := "pending"
  priority : Int := 0
  attachments_count : Int := 0
  created_at : DT
  updated_at : DT
  completed_at : Option DT := none
deriving DecidableEq, Repr

/-- The durable relational store restricted to the two tables the
claims touch. -/
structure DB where
  accounts : List Account := []
  tasks : List Task := []
deriving DecidableEq, Repr

def emptyDB : DB := {}

/-- Primary keys present in the account table. -/
def accountIds (db : DB) : List Nat := db.accounts.filterMap (·.id)

/-- Primary keys present in the task table. -/
def taskIds (db : DB) : List Nat := db.tasks.filterMap (·.id)

/-- `session.get(Account, i)` — fetch by primary key. -/
def findAccount (db : DB) (i : Nat) : Option Account :=
  db.accounts.find? (fun a => a.id == some i)

/-- `session.get(Task, i)` — fetch by primary key. -/
def findTask (db : DB) (i : Nat) : Option Task :=
  db.tasks.find? (fun t => t.id == some i)

/-- SQLite assigns a missing integer primary key as max existing id + 1. -/
def nextAccountId (db : DB) : Nat := (accountIds db).foldr max 0 + 1

def nextTaskId (db : DB) : Nat := (taskIds db).foldr max 0 + 1

def insertAccountRow (db : DB) (a : Account) : DB :=
  { db with accounts := db.accounts ++ [a] }

def insertTaskRow (db : DB) (t : Task) : DB :=
  { db with tasks := db.tasks ++ [t] }

/-- `session.delete(account)` + flush: the row with that primary key is
removed. Primary-key uniqueness means at most one row matches. -/
def removeAccount (db : DB) (i : Nat) : DB :=
  { db with accounts := db.accounts.filter (fun a => !(a.id == some i)) }

def removeTask (db : DB) (i : Nat) : DB :=
  { db with tasks := db.tasks.filter (fun t => !(t.id == some i)) }

/-- Flushing an added `Account` object at commit: a payload without id gets
the storage-assigned key; a supplied id is inserted as-is, and a duplicate
primary key fails the flush (`none` = integrity error, a `SQLAlchemyError`).
Returns the persisted row (what `session.refresh` re-reads) and the new
store. -/
def insertAccount (db : DB) (acc : Account) : Option (Account × DB) :=
  match acc.id with
  | none =>
    let row := { acc with id := some (nextAccountId db) }
    some (row, insertAccountRow db row)
  | some i =>
    if i ∈ accountIds db then none
    else
      let row := { acc with id := some i }
      some (row, insertAccountRow db row)

def insertTask (db : DB) (tsk : Task) : Option (Task × DB) :=
  match tsk.id with
  | none =>
    let row := { tsk with id := some (nextTaskId db) }
    some (row, insertTaskRow db row)
  | some i =>
    if i ∈ taskIds db then none
    else
      let row := { tsk with id := some i }
      some (row, insertTaskRow db row)

/-- State of one `sqlmodel.Session`: the durable store, the session-local
view (uncommitted changes included), and whether `close()` has released the
underlying connection. -/
structure Session where
  committed : DB
  view : DB
  closed : Bool
deriving DecidableEq, Repr

/-- `Session(engine)` — a fresh session over the current store. -/
def openSession (db : DB) : Session := ⟨db, db, false⟩

/-- `session.commit()` — pending changes become durable. -/
def Session.commit (s : Session) : Session := { s with committed := s.view }

/-- `session.rollback()` — pending changes are discarded. -/
def Session.rollback (s : Session) : Session := { s with view := s.committed }

/-- `session.close()` — uncommitted changes are discarded and the
connection is released. -/
def Session.close (s : Session) : Session :=
  { s with view := s.committed, closed := true }

/-- How a handler body running inside `with get_session() as session:`
terminates: a normal return, a raised `HTTPException`, a raised
`SQLAlchemyError`, or any other Python exception (e.g. `AttributeError`). -/
inductive BodyResult (α : Type) where
  | ok (a : α)
  | http (status : Nat) (detail : String)
  | dbError
  | pyError
deriving DecidableEq, Repr

/-- What `get_session` lets escape to the caller. -/
inductive Outcome (α : Type) where
  | ok (a : α)
  | http (status : Nat) (detail : String)
  | runtimeError (msg : String)
  | pyError
deriving DecidableEq, Repr

/-- `app/database.py:52-65` — the session manager: open a session, run the
body; on normal return commit; on `SQLAlchemyError` roll back, log, and
re-raise as `RuntimeError "Database session error"`; any other exception
propagates untouched; the `finally` block closes the session on every
path. -/
def get_session {α : Type} (db : DB) (body : Session → Session × BodyResult α) :
    Session × Outcome α :=
  let s := openSession db
  let (s1, r) := body s
  match r with
  | .ok a => ((s1.commit).close, .ok a)
  | .http c d => (s1.close, .http c d)
  | .dbError => ((s1.rollback).close, .runtimeError "Database session error")
  | .pyError => (s1.close, .pyError)

/-- HTTP response as seen by the client: success payload, an
`HTTPException` with status and detail, or a generic 500 produced by the
framework for an unhandled exception. -/
inductive Resp (α : Type) where
  | ok (a : α)
  | err (status : Nat) (detail : String)
  | internal
deriving DecidableEq, Repr

/-- Run a handler body through the session manager and translate the
outcome into the transport-level response; the durable store after the
request is the session's committed state. -/
def runHandler {α : Type} (db : DB) (body : Session → Session × BodyResult α) :
    Resp α × DB :=
  let (s, o) := get_session db body
  (match o with
   | .ok a => .ok a
   | .http c d => .err c d
   | .runtimeError _ => .internal
   | .pyError => .internal, s.committed)

/-- Storage-failure injection points, mirroring the monkeypatched
`Session` primitives of the test-suite: each flag makes the corresponding
primitive raise `SQLAlchemyError` when called. -/
structure FailurePlan where
  execFails : Bool := false
  addFails : Bool := false
  getFails : Bool := false
  deleteFails : Bool := false
  commitFails : Bool := false
  refreshFails : Bool := false
deriving DecidableEq, Repr

def noFail : FailurePlan := {}

/-! ## Request-body validation

FastAPI validates the JSON body against the declared model: declared
fields that are absent take their defaults (`default_factory=datetime.utcnow`
for the audit timestamps — one fresh clock reading per factory call, passed
in here as `tc` for `created_at` and then `tu` for `updated_at`), and keys
that are not declared fields are discarded. -/

/-- The JSON keys a client may send for an Account body
(`app/models.py:14-21`; every column is a declared field, so every one may
come from the wire). -/
structure AccountPayload where
  id : Option Nat := none
  name : String
  status : Option String := none
  tags : Option String := none
  owner : Option String := none
  created_at : Option DT := none
  updated_at : Option DT := none
deriving DecidableEq, Repr

/-- Validate an Account body: fill declared-field defaults
(`app/models.py:14-21`). `tc` and `tu` are the two successive
`datetime.utcnow()` readings made by the `created_at` and `updated_at`
default factories. -/
def parseAccount (p : AccountPayload) (tc tu : DT) : Account :=
  { id := p.id
    name := p.name
    status := p.status.getD "active"
    tags := p.tags
    owner := p.owner
    created_at := p.created_at.getD tc
    updated_at := p.updated_at.getD tu }

/-- A wire-level due-date value: a structured timestamp or a textual
ISO-8601 string. -/
inductive DueDateJson where
  | stamp (t : DT)
  | iso (s : String)
deriving DecidableEq, Repr

/-- The JSON keys a client may send for a Task body. `due_date` is NOT a
declared field of `Task` (`app/models.py:41-53` names the column `due_at`),
so validation drops it. -/
structure TaskPayload where
  id : Option Nat := none
  account_id : Nat
  contact_id : Option Nat := none
  title : String
  description : Option String := none
  due_at : Option DT := none
  status : Option String := none
  priority : Option Int := none
  attachments_count : Option Int := none
  created_at : Option DT := none
  updated_at : Option DT := none
  completed_at : Option DT := none
  due_date : Option DueDateJson := none
deriving DecidableEq, Repr

/-- Validate a Task body: fill declared-field defaults
(`app/models.py:41-53`). The undeclared `due_date` key is discarded, so no
`Task` value ever carries it. -/
def parseTask (p : TaskPayload) (tc tu : DT) : Task :=
  { id := p.id
    account_id := p.account_id
    contact_id := p.contact_id
    title := p.title
    description := p.description
    due_at := p.due_at
    status := p.status.getD "pending"
    priority := p.priority.getD 0
    attachments_count := p.attachments_count.getD 0
    created_at := p.created_at.getD tc
    updated_at := p.updated_at.getD tu
    completed_at := p.completed_at }

/-! ## Handlers (`app/main.py`)

Each handler body runs inside `with get_session() as session:` and a
`try`/`except SQLAlchemyError` that rolls the session back and raises
`HTTPException(500, <operation-specific message>)`. A `FailurePlan` flag
set to `true` makes the corresponding storage primitive raise
`SQLAlchemyError` at its call site, exactly as the test-suite's
monkeypatching does. -/

/-- `app/main.py:61-75` — GET /accounts. -/
def list_accounts_body (fp : FailurePlan) (s : Session) :
    Session × BodyResult (List Account) :=
  if fp.execFails then
    (s.rollback, .http 500 "Database error while listing accounts")
  else (s, .ok s.view.accounts)

def list_accounts (db : DB) (fp : FailurePlan) : Resp (List Account) × DB :=
  runHandler db (list_accounts_body fp)

/-- `app/main.py:151-164` — GET /tasks. -/
def list_tasks_body (fp : FailurePlan) (s : Session) :
    Session × BodyResult (List Task) :=
  if fp.execFails then
    (s.rollback, .http 500 "Database error while listing tasks")
  else (s, .ok s.view.tasks)

def list_tasks (db : DB) (fp : FailurePlan) : Resp (List Task) × DB :=
  runHandler db (list_tasks_body fp)

/-- `app/main.py:78-96` — POST /accounts handler body, taking the already
validated `Account`. `session.add` stages the object; `session.commit`
flushes and makes it durable (a duplicate supplied primary key fails the
flush); `session.refresh` then re-reads the persisted row — a storage
failure there is raised AFTER the commit, so the rollback in the `except`
branch cannot undo the insert. -/
def create_account_body (fp : FailurePlan) (account : Account) (s : Session) :
    Session × BodyResult Account :=
  if fp.addFails then
    (s.rollback, .http 500 "Database error while creating account")
  else if fp.commitFails then
    (s.rollback, .http 500 "Database error while creating account")
  else
    match insertAccount s.view account with
    | none => (s.rollback, .http 500 "Database error while creating account")
    | some (row, view2) =>
      let s2 := Session.commit { s with view := view2 }
      if fp.refreshFails then
        (s2.rollback, .http 500 "Database error while creating account")
      else (s2, .ok row)

def create_account (db : DB) (fp : FailurePlan) (account : Account) :
    Resp Account × DB :=
  runHandler db (create_account_body fp account)

/-- POST /accounts endpoint: body validation then the handler. -/
def post_accounts (db : DB) (fp : FailurePlan) (p : AccountPayload)
    (tc tu : DT) : Resp Account × DB :=
  create_account db fp (parseAccount p tc tu)

/-- `app/main.py:167-182` — POST /tasks handler body. -/
def create_task_body (fp : FailurePlan) (task : Task) (s : Session) :
    Session × BodyResult Task :=
  if fp.addFails then
    (s.rollback, .http 500 "Database error while creating task")
  else if fp.commitFails then
    (s.rollback, .http 500 "Database error while creating task")
  else
    match insertTask s.view task with
    | none => (s.rollback, .http 500 "Database error while creating task")
    | some (row, view2) =>
      let s2 := Session.commit { s with view := view2 }
      if fp.refreshFails then
        (s2.rollback, .http 500 "Database error while creating task")
      else (s2, .ok row)

def create_task (db : DB) (fp : FailurePlan) (task : Task) : Resp Task × DB :=
  runHandler db (create_task_body fp task)

def post_tasks (db : DB) (fp : FailurePlan) (p : TaskPayload) (tc tu : DT) :
    Resp Task × DB :=
  create_task db fp (parseTask p tc tu)

/-- `app/main.py:99-128` — PUT /accounts/\x7baccount_id\x7d handler body.
`now` is the `datetime.utcnow()` reading at `app/main.py:116`. The mutable
fields name, status, tags, owner are overwritten from the payload while
`created_at` is left intact and `updated_at` is set to `now`. -/
def update_account_body (fp : FailurePlan) (account_id : Nat)
    (account : Account) (now : DT) (s : Session) :
    Session × BodyResult Account :=
  if fp.getFails then
    (s.rollback, .http 500 "Database error while updating account")
  else
    match findAccount s.view account_id with
    | none => (s, .http 404 "Account not found")
    | some existing =>
      let updated := { existing with
                       name := account.name
                       status := account.status
                       tags := account.tags
                       owner := account.owner
                       updated_at := now }
      let view2 := { s.view with
                     accounts := s.view.accounts.map
                       (fun a => if a.id == some account_id then updated else a) }
      if fp.commitFails then
        (Session.rollback { s with view := view2 },
         .http 500 "Database error while updating account")
      else
        let s2 := Session.commit { s with view := view2 }
        if fp.refreshFails then
          (s2.rollback, .http 500 "Database error while updating account")
        else (s2, .ok updated)

def update_account (db : DB) (fp : FailurePlan) (account_id : Nat)
    (account : Account) (now : DT) : Resp Account × DB :=
  runHandler db (update_account_body fp account_id account now)

/-- `app/main.py:185-213` — PUT /tasks/\x7btask_id\x7d handler body. After
the 404 check the handler copies `title` and `status` onto the fetched row
(`app/main.py:194-195`) and then evaluates `isinstance(task.due_date, str)`
(`app/main.py:197`). `Task` (`app/models.py:41-53`) declares `due_at` but
no `due_date`, and validation has discarded any `due_date` key from the
payload, so this attribute access raises `AttributeError`. That exception
is neither an `HTTPException` nor a `SQLAlchemyError`: it aborts the
request before `session.commit()`, the dirty row is discarded when the
session closes, and none of the later statements (due-date coercion,
`account_id` copy, commit, refresh) ever runs. -/
def update_task_body (fp : FailurePlan) (task_id : Nat) (task : Task)
    (s : Session) : Session × BodyResult Task :=
  if fp.getFails then
    (s.rollback, .http 500 "Database error while updating task")
  else
    match findTask s.view task_id with
    | none => (s, .http 404 "Task not found")
    | some existing =>
      let dirty := { existing with title := task.title, status := task.status }
      let view2 := { s.view with
                     tasks := s.view.tasks.map
                       (fun t => if t.id == some task_id then dirty else t) }
      ({ s with view := view2 }, .pyError)

def update_task (db : DB) (fp : FailurePlan) (task_id : Nat) (task : Task) :
    Resp Task × DB :=
  runHandler db (update_task_body fp task_id task)

/-- PUT /tasks/\x7btask_id\x7d endpoint: body validation then the handler. -/
def put_tasks (db : DB) (fp : FailurePlan) (task_id : Nat) (p : TaskPayload)
    (tc tu : DT) : Resp Task × DB :=
  update_task db fp task_id (parseTask p tc tu)

/-- `app/main.py:131-148` — DELETE /accounts/\x7baccount_id\x7d handler
body. The success payload models the literal response `{"ok": True}`.
`session.delete` marks the fetched row deleted; the flush inside
`session.commit()` (reached only when no commit failure is injected)
first applies the ORM's nullify rule to the account's loaded `tasks`
collection: if any task references the account, the emitted
`UPDATE task SET account_id = NULL` violates the NOT NULL constraint on
`Task.account_id` (`app/models.py:43`) and raises an integrity error — a
`SQLAlchemyError` caught by the handler's `except` branch, which rolls
back and answers the operation-specific 500 with nothing removed. Only
when no task references the account does the commit remove the row. -/
def delete_account_body (fp : FailurePlan) (account_id : Nat) (s : Session) :
    Session × BodyResult Bool :=
  if fp.getFails then
    (s.rollback, .http 500 "Database error while deleting account")
  else
    match findAccount s.view account_id with
    | none => (s, .http 404 "Account not found")
    | some _ =>
      if fp.deleteFails then
        (s.rollback, .http 500 "Database error while deleting account")
      else
        let view2 := removeAccount s.view account_id
        if fp.commitFails then
          (Session.rollback { s with view := view2 },
           .http 500 "Database error while deleting account")
        else if s.view.tasks.any (fun t => t.account_id == account_id) then
          (Session.rollback { s with view := view2 },
           .http 500 "Database error while deleting account")
        else (Session.commit { s with view := view2 }, .ok true)

def delete_account (db : DB) (fp : FailurePlan) (account_id : Nat) :
    Resp Bool × DB :=
  runHandler db (delete_account_body fp account_id)

/-- `app/main.py:216-233` — DELETE /tasks/\x7btask_id\x7d handler body.
In the modeled stores the attachment and note tables are empty, so the
flush of a task delete has no non-nullable child to nullify and the
commit removes the row. -/
def delete_task_body (fp : FailurePlan) (task_id : Nat) (s : Session) :
    Session × BodyResult Bool :=
  if fp.getFails then
    (s.rollback, .http 500 "Database error while deleting task")
  else
    match findTask s.view task_id with
    | none => (s, .http 404 "Task not found")
    | some _ =>
      if fp.deleteFails then
        (s.rollback, .http 500 "Database error while deleting task")
      else
        let view2 := removeTask s.view task_id
        if fp.commitFails then
          (Session.rollback { s with view := view2 },
           .http 500 "Database error while deleting task")
        else (Session.commit { s with view := view2 }, .ok true)

def delete_task (db : DB) (fp : FailurePlan) (task_id : Nat) :
    Resp Bool × DB :=
  runHandler db (delete_task_body fp task_id)

/-! ## Shared helper lemmas and sample data -/

/-- A sample store with one account and one task, both with primary key 1
and audit timestamps 10. -/
def dbSample : DB :=
  { accounts := [{ id := some 1, name := "Old", status := "active",
                   created_at := 10, updated_at := 10 }],
    tasks := [{ id := some 1, account_id := 1, title := "Old",
                created_at := 10, updated_at := 10 }] }

lemma mem_le_foldr_max {l : List Nat} {x : Nat} (h : x ∈ l) :
    x ≤ l.foldr max 0 := by
  induction l with
  | nil => cases h
  | cons a t ih =>
    rcases List.mem_cons.mp h with rfl | h2
    · exact le_max_left _ _
    · exact le_trans (ih h2) (le_max_right _ _)

lemma nextAccountId_not_mem (db : DB) : nextAccountId db ∉ accountIds db := by
  intro h
  have := mem_le_foldr_max h
  simp only [nextAccountId] at this ⊢
  omega

lemma nextTaskId_not_mem (db : DB) : nextTaskId db ∉ taskIds db := by
  intro h
  have := mem_le_foldr_max h
  simp only [nextTaskId] at this ⊢
  omega

lemma nodup_append_singleton {l : List Nat} {j : Nat} (hn : l.Nodup)
    (hj : j ∉ l) : (l ++ [j]).Nodup := by
  simp [List.nodup_append, hn, hj]

lemma accountIds_insertAccountRow (db : DB) (a : Account) :
    accountIds (insertAccountRow db a) = accountIds db ++ a.id.toList := by
  cases h : a.id <;>
    simp [accountIds, insertAccountRow, List.filterMap_append, h]

lemma taskIds_insertTaskRow (db : DB) (t : Task) :
    taskIds (insertTaskRow db t) = taskIds db ++ t.id.toList := by
  cases h : t.id <;>
    simp [taskIds, insertTaskRow, List.filterMap_append, h]

lemma findAccount_removeAccount (db : DB) (i : Nat) :
    findAccount (removeAccount db i) i = none := by
  simp only [findAccount, removeAccount, List.find?_eq_none]
  intro a ha
  have := (List.mem_filter.mp ha).2
  simpa using this

lemma findTask_removeTask (db : DB) (i : Nat) :
    findTask (removeTask db i) i = none := by
  simp only [findTask, removeTask, List.find?_eq_none]
  intro t ht
  have := (List.mem_filter.mp ht).2
  simpa using this

lemma findAccount_isSome_of_mem {db : DB} {i : Nat} (h : i ∈ accountIds db) :
    ∃ a, findAccount db i = some a := by
  obtain ⟨a, ha, hai⟩ := List.mem_filterMap.mp h
  have : (db.accounts.find? (fun a => a.id == some i)).isSome := by
    rw [List.find?_isSome]
    exact ⟨a, ha, by simp [hai]⟩
  exact Option.isSome_iff_exists.mp this

lemma findTask_isSome_of_mem {db : DB} {i : Nat} (h : i ∈ taskIds db) :
    ∃ t, findTask db i = some t := by
  obtain ⟨t, ht, hti⟩ := List.mem_filterMap.mp h
  have : (db.tasks.find? (fun t => t.id == some i)).isSome := by
    rw [List.find?_isSome]
    exact ⟨t, ht, by simp [hti]⟩
  exact Option.isSome_iff_exists.mp this

/-! ## Claims -/

/-- C1: for every identifier not present in the store, the update-by-id
handlers (PUT /accounts and PUT /tasks) return 404 with the
resource-specific message and leave the stored collection completely
unchanged; no rollback or storage-error translation happens on this
path. -/
theorem update_missing_id_not_found (db : DB) (i : Nat) (pa : Account)
    (pt : Task) (now : DT) :
    ((∀ a ∈ db.accounts, a.id ≠ some i) →
      update_account db noFail i pa now =
        (.err 404 "Account not found", db)) ∧
    ((∀ t ∈ db.tasks, t.id ≠ some i) →
      update_task db noFail i pt = (.err 404 "Task not found", db)) := by
  constructor
  · intro h
    have hf : findAccount db i = none := by
      simp only [findAccount, List.find?_eq_none]
      intro a ha
      simp [h a ha]
    simp [update_account, runHandler, get_session, update_account_body,
          openSession, noFail, hf, Session.close]
  · intro h
    have hf : findTask db i = none := by
      simp only [findTask, List.find?_eq_none]
      intro t ht
      simp [h t ht]
    simp [update_task, runHandler, get_session, update_task_body,
          openSession, noFail, hf, Session.close]

/-- Witness for C1 at a concrete store: id 2 is absent from `dbSample`, so
both update handlers return 404 and leave the store unchanged. -/
theorem update_missing_id_not_found_witness :
    update_account dbSample noFail 2 (parseAccount { name := "New" } 0 0) 42 =
      (.err 404 "Account not found", dbSample) ∧
    update_task dbSample noFail 2 (parseTask { account_id := 1, title := "New" } 0 0) =
      (.err 404 "Task not found", dbSample) :=
  ⟨(update_missing_id_not_found dbSample 2
      (parseAccount { name := "New" } 0 0)
      (parseTask { account_id := 1, title := "New" } 0 0) 42).1 (by decide),
   (update_missing_id_not_found dbSample 2
      (parseAccount { name := "New" } 0 0)
      (parseTask { account_id := 1, title := "New" } 0 0) 42).2 (by decide)⟩

/-- C2 (code bug): updating the existing task 1 with a textual ISO due
date does NOT round-trip. `Task` (`app/models.py:41-53`) names the column
`due_at` and declares no `due_date`, while `update_task`
(`app/main.py:197`) reads `task.due_date`: the attribute access raises
`AttributeError`, the request ends in an unhandled-exception 500, the
store is unchanged, and the read-back task still has no due date. -/
theorem task_due_date_roundtrip_fails :
    put_tasks dbSample noFail 1
        { account_id := 1, title := "New", status := some "done",
          due_date := some (.iso "2025-06-01T00:00:00") } 30 31 =
      (.internal, dbSample) ∧
    (list_tasks dbSample noFail).1 = .ok dbSample.tasks ∧
    (∀ t ∈ dbSample.tasks, t.due_at = none) :=
  ⟨rfl, rfl, by decide⟩

/-- C3 (code bug): the Account update handler keeps `created_at` and
refreshes `updated_at` to the current reading, but the Task update handler
never refreshes `updated_at` — it dies with an `AttributeError` on
`task.due_date` (`app/main.py:197`) before reaching `session.commit()`, so
the stored task keeps its stale `updated_at` (= 10) and no field-mutating
task update ever succeeds. -/
theorem audit_fields_on_update :
    (update_account dbSample noFail 1 (parseAccount { name := "New" } 30 31) 42).1 =
      .ok { id := some 1, name := "New", status := "active",
            created_at := 10, updated_at := 42 } ∧
    update_task dbSample noFail 1
        (parseTask { account_id := 1, title := "New", status := some "done" } 30 31) =
      (.internal, dbSample) ∧
    (∀ t ∈ dbSample.tasks, t.updated_at = 10 ∧ t.updated_at ≠ 42) :=
  ⟨rfl, rfl, by decide⟩

/-- C9: the session manager (`app/database.py:52-65`) closes the session —
releasing the connection — on every exit path of the body (normal return,
raised `HTTPException`, raised `SQLAlchemyError`, any other exception), and
on normal exit the transaction is committed: the durable store equals the
body's final session view. -/
theorem session_scope_release_and_commit {α : Type} (db : DB)
    (body : Session → Session × BodyResult α) :
    ((get_session db body).1).closed = true ∧
    (∀ a, (get_session db body).2 = Outcome.ok a →
      ((get_session db body).1).committed = (body (openSession db)).1.view) := by
  rcases hbody : body (openSession db) with ⟨s1, r⟩
  cases r <;>
    simp [get_session, hbody, Session.close, Session.commit, Session.rollback]

/-- Witness for C9 with a concrete body that returns normally: the session
ends closed and the returned view is committed. -/
theorem session_scope_release_and_commit_witness :
    ((get_session emptyDB (fun s => (s, BodyResult.ok (42 : Nat)))).1).closed = true ∧
    ((get_session emptyDB (fun s => (s, BodyResult.ok (42 : Nat)))).1).committed =
      ((fun s => (s, BodyResult.ok (42 : Nat))) (openSession emptyDB)).1.view :=
  ⟨(session_scope_release_and_commit emptyDB
      (fun s => (s, BodyResult.ok (42 : Nat)))).1,
   (session_scope_release_and_commit emptyDB
      (fun s => (s, BodyResult.ok (42 : Nat)))).2 42 rfl⟩

/-- C4 counterexample: an id supplied in the create payload is NOT ignored.
On an empty store — where storage would assign primary key
`nextAccountId emptyDB = 1` — POST /accounts with `{"id": 42, "name": "X"}`
returns a record whose identifier is 42, the supplied value, not the
storage-assigned one. -/
theorem create_supplied_id_not_ignored :
    (post_accounts emptyDB noFail { name := "X", id := some 42 } 0 0).1 =
      .ok { id := some 42, name := "X", status := "active",
            created_at := 0, updated_at := 0 } ∧
    some 42 ≠ some (nextAccountId emptyDB) :=
  ⟨rfl, by decide⟩

/-- C4 (amended): on create, a payload WITHOUT an id gets the
storage-assigned key (max existing id + 1); a payload WITH an id is
inserted under that supplied id when it is free, and fails with the 500
storage error (store unchanged) when it collides; in all successful cases
the handler returns the fully populated persisted row, and primary-key
uniqueness of the collection is preserved. -/
theorem create_assigns_or_uses_supplied_id (db : DB) (pa : AccountPayload)
    (pt : TaskPayload) (tc tu : DT) :
    (pa.id = none →
      post_accounts db noFail pa tc tu =
        (.ok { parseAccount pa tc tu with id := some (nextAccountId db) },
         insertAccountRow db
           { parseAccount pa tc tu with id := some (nextAccountId db) })) ∧
    (∀ i, pa.id = some i → i ∉ accountIds db →
      post_accounts db noFail pa tc tu =
        (.ok { parseAccount pa tc tu with id := some i },
         insertAccountRow db { parseAccount pa tc tu with id := some i })) ∧
    (∀ i, pa.id = some i → i ∈ accountIds db →
      post_accounts db noFail pa tc tu =
        (.err 500 "Database error while creating account", db)) ∧
    ((accountIds db).Nodup →
      (accountIds (post_accounts db noFail pa tc tu).2).Nodup) ∧
    (pt.id = none →
      post_tasks db noFail pt tc tu =
        (.ok { parseTask pt tc tu with id := some (nextTaskId db) },
         insertTaskRow db
           { parseTask pt tc tu with id := some (nextTaskId db) })) ∧
    (∀ i, pt.id = some i → i ∉ taskIds db →
      post_tasks db noFail pt tc tu =
        (.ok { parseTask pt tc tu with id := some i },
         insertTaskRow db { parseTask pt tc tu with id := some i })) ∧
    (∀ i, pt.id = some i → i ∈ taskIds db →
      post_tasks db noFail pt tc tu =
        (.err 500 "Database error while creating task", db)) ∧
    ((taskIds db).Nodup →
      (taskIds (post_tasks db noFail pt tc tu).2).Nodup) := by
  have hparseA : (parseAccount pa tc tu).id = pa.id := rfl
  have hparseT : (parseTask pt tc tu).id = pt.id := rfl
  refine ⟨?_, ?_, ?_, ?_, ?_, ?_, ?_, ?_⟩
  · intro h
    simp [post_accounts, create_account, runHandler, get_session,
          create_account_body, insertAccount, openSession, noFail, hparseA,
          h, Session.commit, Session.close]
  · intro i hi hmem
    simp [post_accounts, create_account, runHandler, get_session,
          create_account_body, insertAccount, openSession, noFail, hparseA,
          hi, hmem, Session.commit, Session.close]
  · intro i hi hmem
    simp [post_accounts, create_account, runHandler, get_session,
          create_account_body, insertAccount, openSession, noFail, hparseA,
          hi, hmem, Session.rollback, Session.close]
  · intro hn
    cases hi : pa.id with
    | none =>
      have h1 := by
        simpa using
          (congrArg Prod.snd
            (show post_accounts db noFail pa tc tu =
              (.ok { parseAccount pa tc tu with id := some (nextAccountId db) },
               insertAccountRow db
                 { parseAccount pa tc tu with id := some (nextAccountId db) }) by
              simp [post_accounts, create_account, runHandler, get_session,
                    create_account_body, insertAccount, openSession, noFail,
                    hparseA, hi, Session.commit, Session.close]))
      rw [h1, accountIds_insertAccountRow]
      exact nodup_append_singleton hn (nextAccountId_not_mem db)
    | some i =>
      by_cases hmem : i ∈ accountIds db
      · have h1 := by
          simpa using
            (congrArg Prod.snd
              (show post_accounts db noFail pa tc tu =
                (.err 500 "Database error while creating account", db) by
                simp [post_accounts, create_account, runHandler, get_session,
                      create_account_body, insertAccount, openSession, noFail,
                      hparseA, hi, hmem, Session.rollback, Session.close]))
        rw [h1]
        exact hn
      · have h1 := by
          simpa using
            (congrArg Prod.snd
              (show post_accounts db noFail pa tc tu =
                (.ok { parseAccount pa tc tu with id := some i },
                 insertAccountRow db
                   { parseAccount pa tc tu with id := some i }) by
                simp [post_accounts, create_account, runHandler, get_session,
                      create_account_body, insertAccount, openSession, noFail,
                      hparseA, hi, hmem, Session.commit, Session.close]))
        rw [h1, accountIds_insertAccountRow]
        exact nodup_append_singleton hn hmem
  · intro h
    simp [post_tasks, create_task, runHandler, get_session,
          create_task_body, insertTask, openSession, noFail, hparseT,
          h, Session.commit, Session.close]
  · intro i hi hmem
    simp [post_tasks, create_task, runHandler, get_session,
          create_task_body, insertTask, openSession, noFail, hparseT,
          hi, hmem, Session.commit, Session.close]
  · intro i hi hmem
    simp [post_tasks, create_task, runHandler, get_session,
          create_task_body, insertTask, openSession, noFail, hparseT,
          hi, hmem, Session.rollback, Session.close]
  · intro hn
    cases hi : pt.id with
    | none =>
      have h1 := by
        simpa using
          (congrArg Prod.snd
            (show post_tasks db noFail pt tc tu =
              (.ok { parseTask pt tc tu with id := some (nextTaskId db) },
               insertTaskRow db
                 { parseTask pt tc tu with id := some (nextTaskId db) }) by
              simp [post_tasks, create_task, runHandler, get_session,
                    create_task_body, insertTask, openSession, noFail,
                    hparseT, hi, Session.commit, Session.close]))
      rw [h1, taskIds_insertTaskRow]
      exact nodup_append_singleton hn (nextTaskId_not_mem db)
    | some i =>
      by_cases hmem : i ∈ taskIds db
      · have h1 := by
          simpa using
            (congrArg Prod.snd
              (show post_tasks db noFail pt tc tu =
                (.err 500 "Database error while creating task", db) by
                simp [post_tasks, create_task, runHandler, get_session,
                      create_task_body, insertTask, openSession, noFail,
                      hparseT, hi, hmem, Session.rollback, Session.close]))
        rw [h1]
        exact hn
      · have h1 := by
          simpa using
            (congrArg Prod.snd
              (show post_tasks db noFail pt tc tu =
                (.ok { parseTask pt tc tu with id := some i },
                 insertTaskRow db { parseTask pt tc tu with id := some i }) by
                simp [post_tasks, create_task, runHandler, get_session,
                      create_task_body, insertTask, openSession, noFail,
                      hparseT, hi, hmem, Session.commit, Session.close]))
        rw [h1, taskIds_insertTaskRow]
        exact nodup_append_singleton hn hmem

/-- Witness for C4 (amended) at concrete inputs: an id-less create on
`dbSample` is assigned key 2, and a create supplying the taken id 1 fails
with the storage error leaving the store unchanged. -/
theorem create_assigns_or_uses_supplied_id_witness :
    post_accounts dbSample noFail { name := "B" } 7 8 =
      (.ok { id := some 2, name := "B", status := "active",
             created_at := 7, updated_at := 8 },
       insertAccountRow dbSample
         { id := some 2, name := "B", status := "active",
           created_at := 7, updated_at := 8 }) ∧
    post_accounts dbSample noFail { name := "B", id := some 1 } 7 8 =
      (.err 500 "Database error while creating account", dbSample) := by
  constructor
  · have h := (create_assigns_or_uses_supplied_id dbSample { name := "B" }
      { account_id := 1, title := "T" } 7 8).1 rfl
    simpa using h
  · have h := ((create_assigns_or_uses_supplied_id dbSample
      { name := "B", id := some 1 }
      { account_id := 1, title := "T" } 7 8).2.2.1) 1 rfl (by decide)
    simpa using h

/-- The row persisted for POST /accounts with body `{"name": n}` on store
`db` (timestamps fixed at clock reading 0). -/
def mkNamedAccount (db : DB) (n : String) : Account :=
  { id := some (nextAccountId db), name := n, created_at := 0,
    updated_at := 0 }

/-- The row persisted for POST /tasks with body
`{"title": n, "account_id": 1}` on store `db`. -/
def mkTitledTask (db : DB) (n : String) : Task :=
  { id := some (nextTaskId db), account_id := 1, title := n,
    created_at := 0, updated_at := 0 }

lemma post_accounts_named (db : DB) (n : String) :
    post_accounts db noFail { name := n } 0 0 =
      (.ok (mkNamedAccount db n),
       insertAccountRow db (mkNamedAccount db n)) := by
  simp [post_accounts, create_account, runHandler, get_session,
        create_account_body, insertAccount, parseAccount, openSession,
        noFail, mkNamedAccount, Session.commit, Session.close]

lemma post_tasks_titled (db : DB) (n : String) :
    post_tasks db noFail { account_id := 1, title := n } 0 0 =
      (.ok (mkTitledTask db n), insertTaskRow db (mkTitledTask db n)) := by
  simp [post_tasks, create_task, runHandler, get_session,
        create_task_body, insertTask, parseTask, openSession,
        noFail, mkTitledTask, Session.commit, Session.close]

/-- Run one POST /accounts per name, in order, threading the store. -/
def runCreates (db : DB) (names : List String) : DB :=
  names.foldl (fun d n => (post_accounts d noFail { name := n } 0 0).2) db

/-- Run one POST /tasks per title, in order, threading the store. -/
def runTaskCreates (db : DB) (titles : List String) : DB :=
  titles.foldl
    (fun d n => (post_tasks d noFail { account_id := 1, title := n } 0 0).2) db

lemma runCreates_accounts (names : List String) : ∀ db : DB,
    (runCreates db names).accounts.length =
        db.accounts.length + names.length ∧
    (runCreates db names).accounts.map Account.name =
        db.accounts.map Account.name ++ names ∧
    ((accountIds db).Nodup → (accountIds (runCreates db names)).Nodup) := by
  induction names with
  | nil => intro db; simp [runCreates]
  | cons n t ih =>
    intro db
    have hstep : runCreates db (n :: t) =
        runCreates (insertAccountRow db (mkNamedAccount db n)) t := by
      simp [runCreates, post_accounts_named]
    rw [hstep]
    obtain ⟨hl, hm, hn⟩ := ih (insertAccountRow db (mkNamedAccount db n))
    refine ⟨?_, ?_, ?_⟩
    · rw [hl]; simp [insertAccountRow]; omega
    · rw [hm]; simp [insertAccountRow, mkNamedAccount]
    · intro hnd
      refine hn ?_
      rw [accountIds_insertAccountRow]
      exact nodup_append_singleton hnd
        (by simpa [mkNamedAccount] using nextAccountId_not_mem db)

lemma runTaskCreates_tasks (titles : List String) : ∀ db : DB,
    (runTaskCreates db titles).tasks.length =
        db.tasks.length + titles.length ∧
    (runTaskCreates db titles).tasks.map Task.title =
        db.tasks.map Task.title ++ titles ∧
    ((taskIds db).Nodup → (taskIds (runTaskCreates db titles)).Nodup) := by
  induction titles with
  | nil => intro db; simp [runTaskCreates]
  | cons n t ih =>
    intro db
    have hstep : runTaskCreates db (n :: t) =
        runTaskCreates (insertTaskRow db (mkTitledTask db n)) t := by
      simp [runTaskCreates, post_tasks_titled]
    rw [hstep]
    obtain ⟨hl, hm, hn⟩ := ih (insertTaskRow db (mkTitledTask db n))
    refine ⟨?_, ?_, ?_⟩
    · rw [hl]; simp [insertTaskRow]; omega
    · rw [hm]; simp [insertTaskRow, mkTitledTask]
    · intro hnd
      refine hn ?_
      rw [taskIds_insertTaskRow]
      exact nodup_append_singleton hnd
        (by simpa [mkTitledTask] using nextTaskId_not_mem db)

lemma list_accounts_noFail (db : DB) :
    list_accounts db noFail = (.ok db.accounts, db) := by
  simp [list_accounts, runHandler, get_session, list_accounts_body,
        openSession, noFail, Session.commit, Session.close]

lemma list_tasks_noFail (db : DB) :
    list_tasks db noFail = (.ok db.tasks, db) := by
  simp [list_tasks, runHandler, get_session, list_tasks_body,
        openSession, noFail, Session.commit, Session.close]

/-- C5: after N successful creates of a resource starting from the empty
store, the list handler returns exactly N records (the empty collection
for N = 0), with every created name/title present in order and all
primary keys distinct. -/
theorem list_after_creates (names titles : List String) :
    (list_accounts emptyDB noFail).1 = .ok [] ∧
    (list_accounts (runCreates emptyDB names) noFail).1 =
        .ok (runCreates emptyDB names).accounts ∧
    (runCreates emptyDB names).accounts.length = names.length ∧
    (runCreates emptyDB names).accounts.map Account.name = names ∧
    (accountIds (runCreates emptyDB names)).Nodup ∧
    (list_tasks emptyDB noFail).1 = .ok [] ∧
    (list_tasks (runTaskCreates emptyDB titles) noFail).1 =
        .ok (runTaskCreates emptyDB titles).tasks ∧
    (runTaskCreates emptyDB titles).tasks.length = titles.length ∧
    (runTaskCreates emptyDB titles).tasks.map Task.title = titles ∧
    (taskIds (runTaskCreates emptyDB titles)).Nodup := by
  obtain ⟨hal, ham, han⟩ := runCreates_accounts names emptyDB
  obtain ⟨htl, htm, htn⟩ := runTaskCreates_tasks titles emptyDB
  refine ⟨?_, ?_, ?_, ?_, ?_, ?_, ?_, ?_, ?_, ?_⟩
  · rw [list_accounts_noFail]; rfl
  · rw [list_accounts_noFail]
  · simpa [emptyDB] using hal
  · simpa [emptyDB] using ham
  · exact han (by simp [emptyDB, accountIds])
  · rw [list_tasks_noFail]; rfl
  · rw [list_tasks_noFail]
  · simpa [emptyDB] using htl
  · simpa [emptyDB] using htm
  · exact htn (by simp [emptyDB, taskIds])

lemma delete_account_absent {db : DB} {i : Nat}
    (hf : findAccount db i = none) :
    delete_account db noFail i = (.err 404 "Account not found", db) := by
  simp [delete_account, runHandler, get_session, delete_account_body,
        openSession, noFail, hf, Session.close]

lemma delete_account_present {db : DB} {i : Nat} {a : Account}
    (hf : findAccount db i = some a)
    (hno : db.tasks.any (fun t => t.account_id == i) = false) :
    delete_account db noFail i = (.ok true, removeAccount db i) := by
  simp [delete_account, runHandler, get_session, delete_account_body,
        openSession, noFail, hf, hno, Session.commit, Session.close]

lemma delete_account_referenced {db : DB} {i : Nat} {a : Account}
    (hf : findAccount db i = some a)
    (hyes : db.tasks.any (fun t => t.account_id == i) = true) :
    delete_account db noFail i =
      (.err 500 "Database error while deleting account", db) := by
  simp [delete_account, runHandler, get_session, delete_account_body,
        openSession, noFail, hf, hyes, Session.rollback, Session.close]

lemma findAccount_mem {db : DB} {i : Nat} {a : Account}
    (hf : findAccount db i = some a) : i ∈ accountIds db := by
  have hmem := List.mem_of_find?_eq_some hf
  have hp := List.find?_some hf
  exact List.mem_filterMap.mpr ⟨a, hmem, by simpa using hp⟩

lemma delete_task_absent {db : DB} {i : Nat} (hf : findTask db i = none) :
    delete_task db noFail i = (.err 404 "Task not found", db) := by
  simp [delete_task, runHandler, get_session, delete_task_body,
        openSession, noFail, hf, Session.close]

lemma delete_task_present {db : DB} {i : Nat} {t : Task}
    (hf : findTask db i = some t) :
    delete_task db noFail i = (.ok true, removeTask db i) := by
  simp [delete_task, runHandler, get_session, delete_task_body,
        openSession, noFail, hf, Session.commit, Session.close]

/-- C6 counterexample: identifier 1 is present in `dbSample`, but its
account is referenced by a task, so the delete fails at flush (the ORM's
nullify of the non-nullable `Task.account_id` raises an integrity error):
the handler answers the 500 storage error with nothing removed, and the
second attempt repeats the 500 — not the claimed ok-then-404. -/
theorem delete_referenced_account_double_500 :
    delete_account dbSample noFail 1 =
      (.err 500 "Database error while deleting account", dbSample) ∧
    delete_account (delete_account dbSample noFail 1).2 noFail 1 =
      (.err 500 "Database error while deleting account", dbSample) ∧
    (delete_account (delete_account dbSample noFail 1).2 noFail 1).1 ≠
      .err 404 "Account not found" :=
  ⟨rfl, rfl, by decide⟩

/-- C6 (amended): deleting a present identifier removes the row and
acknowledges with ok = true when no other row references it — always the
case for tasks in this core, but for an account only when no task
references it: a referenced account's delete fails the flush with the
operation-specific 500 and removes nothing. After a successful delete no
row with that identifier remains (a subsequent list no longer contains
it), and when the first delete succeeded — or the identifier was absent —
deleting the same identifier again yields 404 with the resource-specific
message; after a failed referenced-account delete the second attempt
repeats the 500 instead. -/
theorem delete_by_id_semantics (db : DB) (i : Nat) :
    (i ∈ accountIds db → (∀ t ∈ db.tasks, t.account_id ≠ i) →
      delete_account db noFail i = (.ok true, removeAccount db i)) ∧
    (i ∈ accountIds db → (∃ t ∈ db.tasks, t.account_id = i) →
      delete_account db noFail i =
        (.err 500 "Database error while deleting account", db)) ∧
    ((delete_account db noFail i).1 = .ok true →
      ∀ a ∈ ((delete_account db noFail i).2).accounts, a.id ≠ some i) ∧
    ((delete_account db noFail i).1 = .ok true ∨ i ∉ accountIds db →
      delete_account (delete_account db noFail i).2 noFail i =
        (.err 404 "Account not found", (delete_account db noFail i).2)) ∧
    (i ∈ taskIds db →
      delete_task db noFail i = (.ok true, removeTask db i)) ∧
    (∀ t ∈ ((delete_task db noFail i).2).tasks, t.id ≠ some i) ∧
    delete_task (delete_task db noFail i).2 noFail i =
      (.err 404 "Task not found", (delete_task db noFail i).2) := by
  refine ⟨?_, ?_, ?_, ?_, ?_, ?_, ?_⟩
  · intro hmem hnoref
    obtain ⟨a, hf⟩ := findAccount_isSome_of_mem hmem
    have hno : db.tasks.any (fun t => t.account_id == i) = false := by
      rw [List.any_eq_false]
      intro t ht
      simpa using hnoref t ht
    exact delete_account_present hf hno
  · intro hmem href
    obtain ⟨a, hf⟩ := findAccount_isSome_of_mem hmem
    have hyes : db.tasks.any (fun t => t.account_id == i) = true := by
      rw [List.any_eq_true]
      obtain ⟨t, ht, hti⟩ := href
      exact ⟨t, ht, by simpa using hti⟩
    exact delete_account_referenced hf hyes
  · intro hok
    cases hf : findAccount db i with
    | none =>
      rw [delete_account_absent hf] at hok
      simp at hok
    | some a =>
      cases hany : db.tasks.any (fun t => t.account_id == i) with
      | true =>
        rw [delete_account_referenced hf hany] at hok
        simp at hok
      | false =>
        rw [delete_account_present hf hany]
        intro b hb
        have := (List.mem_filter.mp hb).2
        simpa using this
  · intro hyp
    cases hf : findAccount db i with
    | none =>
      rw [delete_account_absent hf, delete_account_absent hf]
    | some a =>
      cases hany : db.tasks.any (fun t => t.account_id == i) with
      | false =>
        rw [delete_account_present hf hany,
            delete_account_absent (findAccount_removeAccount db i)]
      | true =>
        exfalso
        rcases hyp with hok | habs
        · rw [delete_account_referenced hf hany] at hok
          simp at hok
        · exact habs (findAccount_mem hf)
  · intro hmem
    obtain ⟨t, hf⟩ := findTask_isSome_of_mem hmem
    exact delete_task_present hf
  · cases hf : findTask db i with
    | none =>
      rw [delete_task_absent hf]
      intro t ht
      have := (List.find?_eq_none.mp hf) t ht
      simpa using this
    | some t =>
      rw [delete_task_present hf]
      intro u hu
      have := (List.mem_filter.mp hu).2
      simpa using this
  · cases hf : findTask db i with
    | none =>
      rw [delete_task_absent hf, delete_task_absent hf]
    | some t =>
      rw [delete_task_present hf,
          delete_task_absent (findTask_removeTask db i)]

/-- A store with two accounts — id 1 referenced by a task, id 2 free of
references. -/
def dbTwo : DB :=
  { accounts := [{ id := some 1, name := "Owner", created_at := 10,
                   updated_at := 10 },
                 { id := some 2, name := "Free", created_at := 10,
                   updated_at := 10 }],
    tasks := [{ id := some 1, account_id := 1, title := "Call",
                created_at := 10, updated_at := 10 }] }

/-- Witness for C6 (amended) at the concrete store `dbTwo`: the
unreferenced account 2 deletes with ok = true and a second attempt yields
404; the referenced account 1 fails with the 500 storage error; task 1
deletes with ok = true. -/
theorem delete_by_id_semantics_witness :
    delete_account dbTwo noFail 2 = (.ok true, removeAccount dbTwo 2) ∧
    delete_account (delete_account dbTwo noFail 2).2 noFail 2 =
      (.err 404 "Account not found", (delete_account dbTwo noFail 2).2) ∧
    delete_account dbTwo noFail 1 =
      (.err 500 "Database error while deleting account", dbTwo) ∧
    delete_task dbTwo noFail 1 = (.ok true, removeTask dbTwo 1) :=
  ⟨(delete_by_id_semantics dbTwo 2).1 (by decide) (by decide),
   (delete_by_id_semantics dbTwo 2).2.2.2.1 (Or.inl (by decide)),
   (delete_by_id_semantics dbTwo 1).2.1 (by decide) (by decide),
   (delete_by_id_semantics dbTwo 1).2.2.2.2.1 (by decide)⟩

/-- C10 counterexample: at `dbSample`, where task 1 references account 1,
DELETE /accounts/1 does NOT remove the account row: the flush fails on the
ORM's nullify of the non-nullable `Task.account_id`, the handler answers
the 500 storage error, and the store is unchanged — the claimed
"successful delete leaving referencing tasks unchanged" never happens. -/
theorem referenced_account_delete_fails :
    delete_account dbSample noFail 1 ≠ (.ok true, removeAccount dbSample 1) ∧
    delete_account dbSample noFail 1 =
      (.err 500 "Database error while deleting account", dbSample) ∧
    (∃ t ∈ dbSample.tasks, t.account_id = 1) :=
  ⟨by decide, rfl, by decide⟩

/-- C10 (amended): the account delete handler never mutates the durable
task table on any path — successful delete, injected storage failure, 404,
or the referenced-account integrity failure — so no cascade delete of
tasks ever occurs; but a delete of an account that some task references
does not succeed at all: it fails the flush (nullify of the non-nullable
`Task.account_id`) and answers the 500 storage error with the whole store,
accounts included, unchanged. -/
theorem delete_account_preserves_tasks (db : DB) (fp : FailurePlan)
    (i : Nat) :
    ((delete_account db fp i).2).tasks = db.tasks ∧
    (i ∈ accountIds db → (∃ t ∈ db.tasks, t.account_id = i) →
      delete_account db noFail i =
        (.err 500 "Database error while deleting account", db)) := by
  constructor
  · cases hg : fp.getFails <;> cases hd : fp.deleteFails <;>
      cases hc : fp.commitFails <;> cases hf : findAccount db i <;>
        cases hany : db.tasks.any (fun t => t.account_id == i) <;>
          simp [delete_account, runHandler, get_session, delete_account_body,
                openSession, removeAccount, Session.commit, Session.rollback,
                Session.close, hg, hd, hc, hf, hany]
  · intro hmem href
    obtain ⟨a, hf⟩ := findAccount_isSome_of_mem hmem
    have hyes : db.tasks.any (fun t => t.account_id == i) = true := by
      rw [List.any_eq_true]
      obtain ⟨t, ht, hti⟩ := href
      exact ⟨t, ht, by simpa using hti⟩
    exact delete_account_referenced hf hyes

/-- Witness for C10 (amended) at the concrete store `dbSample`: the task
table survives the delete attempt untouched, and the referenced-account
delete answers the 500 with the store unchanged. -/
theorem delete_account_preserves_tasks_witness :
    ((delete_account dbSample noFail 1).2).tasks = dbSample.tasks ∧
    delete_account dbSample noFail 1 =
      (.err 500 "Database error while deleting account", dbSample) :=
  ⟨(delete_account_preserves_tasks dbSample noFail 1).1,
   (delete_account_preserves_tasks dbSample noFail 1).2 (by decide)
     (by decide)⟩

/-- C7 counterexample: a storage failure in `session.refresh` — a
persistence-layer read performed by the create handler AFTER
`session.commit()` — yields the operation-specific 500, but the rollback
in the `except` branch cannot undo the already committed insert: starting
from the empty store, the request fails yet the store now contains the
created account, so the pre-failure state is NOT unchanged. -/
theorem refresh_failure_persists_commit :
    post_accounts emptyDB { refreshFails := true } { name := "Test" } 0 0 =
      (.err 500 "Database error while creating account",
       { accounts := [{ id := some 1, name := "Test", status := "active",
                        created_at := 0, updated_at := 0 }] }) ∧
    ({ accounts := [{ id := some 1, name := "Test", status := "active",
                      created_at := 0, updated_at := 0 }] } : DB) ≠ emptyDB :=
  ⟨rfl, by decide⟩

/-- C7 (amended): every storage failure raised during one of the eight
handler operations is translated into a 500 carrying the fixed
operation-specific message (never a success, and the message never carries
the original cause); for failures raised at or before the commit the
enclosing transaction is rolled back and the pre-failure store is
unchanged, while a failure in the post-commit re-read (`session.refresh`)
still yields the 500 but leaves the committed mutation in place (the store
ends exactly as a failure-free run would leave it). In the task update
handler only the fetch can raise a storage failure: the handler aborts on
the `task.due_date` attribute access before any later storage call. -/
theorem storage_failure_translation (db : DB) (fp : FailurePlan)
    (acc : Account) (tsk : Task) (i : Nat) (now : DT) :
    (fp.execFails = true →
      list_accounts db fp =
        (.err 500 "Database error while listing accounts", db)) ∧
    (fp.execFails = true →
      list_tasks db fp = (.err 500 "Database error while listing tasks", db)) ∧
    (fp.addFails = true ∨ fp.commitFails = true →
      create_account db fp acc =
        (.err 500 "Database error while creating account", db)) ∧
    (fp.addFails = false → fp.commitFails = false → fp.refreshFails = true →
      create_account db fp acc =
        (.err 500 "Database error while creating account",
         (create_account db noFail acc).2)) ∧
    (fp.addFails = true ∨ fp.commitFails = true →
      create_task db fp tsk =
        (.err 500 "Database error while creating task", db)) ∧
    (fp.addFails = false → fp.commitFails = false → fp.refreshFails = true →
      create_task db fp tsk =
        (.err 500 "Database error while creating task",
         (create_task db noFail tsk).2)) ∧
    (fp.getFails = true →
      update_account db fp i acc now =
        (.err 500 "Database error while updating account", db)) ∧
    (fp.getFails = false → fp.commitFails = true →
      ∀ ex, findAccount db i = some ex →
        update_account db fp i acc now =
          (.err 500 "Database error while updating account", db)) ∧
    (fp.getFails = false → fp.commitFails = false → fp.refreshFails = true →
      ∀ ex, findAccount db i = some ex →
        update_account db fp i acc now =
          (.err 500 "Database error while updating account",
           (update_account db noFail i acc now).2)) ∧
    (fp.getFails = true →
      update_task db fp i tsk =
        (.err 500 "Database error while updating task", db)) ∧
    (fp.getFails = true →
      delete_account db fp i =
        (.err 500 "Database error while deleting account", db)) ∧
    (fp.getFails = false → fp.deleteFails = true ∨ fp.commitFails = true →
      ∀ ex, findAccount db i = some ex →
        delete_account db fp i =
          (.err 500 "Database error while deleting account", db)) ∧
    (fp.getFails = true →
      delete_task db fp i =
        (.err 500 "Database error while deleting task", db)) ∧
    (fp.getFails = false → fp.deleteFails = true ∨ fp.commitFails = true →
      ∀ ex, findTask db i = some ex →
        delete_task db fp i =
          (.err 500 "Database error while deleting task", db)) := by
  refine ⟨?_, ?_, ?_, ?_, ?_, ?_, ?_, ?_, ?_, ?_, ?_, ?_, ?_, ?_⟩
  · intro h
    simp [list_accounts, runHandler, get_session, list_accounts_body,
          openSession, h, Session.rollback, Session.close]
  · intro h
    simp [list_tasks, runHandler, get_session, list_tasks_body,
          openSession, h, Session.rollback, Session.close]
  · intro h
    rcases h with h | h <;> cases ha : fp.addFails <;>
      simp [create_account, runHandler, get_session, create_account_body,
            openSession, h, ha, Session.rollback, Session.close]
  · intro h1 h2 h3
    cases hins : insertAccount db acc with
    | none =>
      simp [create_account, runHandler, get_session, create_account_body,
            openSession, noFail, h1, h2, h3, hins, Session.rollback,
            Session.close]
    | some pr =>
      rcases pr with ⟨row, db2⟩
      simp [create_account, runHandler, get_session, create_account_body,
            openSession, noFail, h1, h2, h3, hins, Session.commit,
            Session.rollback, Session.close]
  · intro h
    rcases h with h | h <;> cases ha : fp.addFails <;>
      simp [create_task, runHandler, get_session, create_task_body,
            openSession, h, ha, Session.rollback, Session.close]
  · intro h1 h2 h3
    cases hins : insertTask db tsk with
    | none =>
      simp [create_task, runHandler, get_session, create_task_body,
            openSession, noFail, h1, h2, h3, hins, Session.rollback,
            Session.close]
    | some pr =>
      rcases pr with ⟨row, db2⟩
      simp [create_task, runHandler, get_session, create_task_body,
            openSession, noFail, h1, h2, h3, hins, Session.commit,
            Session.rollback, Session.close]
  · intro h
    simp [update_account, runHandler, get_session, update_account_body,
          openSession, h, Session.rollback, Session.close]
  · intro h1 h2 ex hex
    simp [update_account, runHandler, get_session, update_account_body,
          openSession, h1, h2, hex, Session.rollback, Session.close]
  · intro h1 h2 h3 ex hex
    simp [update_account, runHandler, get_session, update_account_body,
          openSession, noFail, h1, h2, h3, hex, Session.commit,
          Session.rollback, Session.close]
  · intro h
    simp [update_task, runHandler, get_session, update_task_body,
          openSession, h, Session.rollback, Session.close]
  · intro h
    simp [delete_account, runHandler, get_session, delete_account_body,
          openSession, h, Session.rollback, Session.close]
  · intro h1 h2 ex hex
    rcases h2 with h2 | h2 <;> cases hd : fp.deleteFails <;>
      simp [delete_account, runHandler, get_session, delete_account_body,
            openSession, h1, h2, hd, hex, Session.rollback, Session.close]
  · intro h
    simp [delete_task, runHandler, get_session, delete_task_body,
          openSession, h, Session.rollback, Session.close]
  · intro h1 h2 ex hex
    rcases h2 with h2 | h2 <;> cases hd : fp.deleteFails <;>
      simp [delete_task, runHandler, get_session, delete_task_body,
            openSession, h1, h2, hd, hex, Session.rollback, Session.close]

/-- Witness for C7 (amended) at concrete inputs: an injected query failure
on list, an injected commit failure on update (store unchanged), and an
injected refresh failure on create (committed insert persists). -/
theorem storage_failure_translation_witness :
    list_accounts dbSample { execFails := true } =
      (.err 500 "Database error while listing accounts", dbSample) ∧
    update_account dbSample { commitFails := true } 1
        (parseAccount { name := "N" } 0 0) 5 =
      (.err 500 "Database error while updating account", dbSample) ∧
    create_account dbSample { refreshFails := true }
        (parseAccount { name := "N" } 0 0) =
      (.err 500 "Database error while creating account",
       (create_account dbSample noFail (parseAccount { name := "N" } 0 0)).2) := by
  obtain ⟨l1, _, _, _, _, _, _, u2, _, _, _, _, _, _⟩ :=
    storage_failure_translation dbSample { execFails := true }
      (parseAccount { name := "N" } 0 0)
      (parseTask { account_id := 1, title := "T" } 0 0) 1 5
  obtain ⟨_, _, _, _, _, _, _, v2, _, _, _, _, _, _⟩ :=
    storage_failure_translation dbSample { commitFails := true }
      (parseAccount { name := "N" } 0 0)
      (parseTask { account_id := 1, title := "T" } 0 0) 1 5
  obtain ⟨_, _, _, w4, _, _, _, _, _, _, _, _, _, _⟩ :=
    storage_failure_translation dbSample { refreshFails := true }
      (parseAccount { name := "N" } 0 0)
      (parseTask { account_id := 1, title := "T" } 0 0) 1 5
  refine ⟨l1 rfl, ?_, w4 rfl rfl rfl⟩
  exact v2 rfl rfl
    { id := some 1, name := "Old", status := "active",
      created_at := 10, updated_at := 10 } (by decide)

lemma findAccount_fresh (db : DB) :
    findAccount db (nextAccountId db) = none := by
  simp only [findAccount, List.find?_eq_none]
  intro a ha hbeq
  have : nextAccountId db ∈ accountIds db :=
    List.mem_filterMap.mpr ⟨a, ha, by simpa using hbeq⟩
  exact nextAccountId_not_mem db this

/-- C8 counterexample: `created_at` and `updated_at` come from two
separate `datetime.utcnow()` default-factory calls (`app/models.py:20-21`),
one clock reading each; when the second reading is later (here 0 then 1)
the created account's two audit timestamps are NOT equal, so "equal at
creation time" fails. -/
theorem created_timestamps_not_equal :
    (post_accounts emptyDB noFail { name := "Test" } 0 1).1 =
      .ok { id := some 1, name := "Test", status := "active",
            created_at := 0, updated_at := 1 } ∧
    (∀ a ∈ ((post_accounts emptyDB noFail { name := "Test" } 0 1).2).accounts,
      a.created_at ≠ a.updated_at) :=
  ⟨rfl, by decide⟩

/-- The row persisted for POST /accounts with body `{"name": n}`, with the
two default-factory clock readings `tc` (for `created_at`) and `tu` (for
`updated_at`). -/
def mkDefaultAccount (db : DB) (n : String) (tc tu : DT) : Account :=
  { id := some (nextAccountId db), name := n, created_at := tc,
    updated_at := tu }

/-- C8 (amended): creating an Account from a payload containing only a
name persists a record whose status defaults to "active" and whose
`created_at` and `updated_at` are the two successive default-factory clock
readings — both always populated, with `created_at ≤ updated_at` whenever
the clock is monotone (they coincide only when the two readings are
equal) — and reading the record back by its assigned key returns exactly
that row. -/
theorem created_account_defaults (db : DB) (n : String) (tc tu : DT)
    (h : tc ≤ tu) :
    post_accounts db noFail { name := n } tc tu =
      (.ok (mkDefaultAccount db n tc tu),
       insertAccountRow db (mkDefaultAccount db n tc tu)) ∧
    (mkDefaultAccount db n tc tu).status = "active" ∧
    (mkDefaultAccount db n tc tu).created_at ≤
      (mkDefaultAccount db n tc tu).updated_at ∧
    findAccount (insertAccountRow db (mkDefaultAccount db n tc tu))
        (nextAccountId db) = some (mkDefaultAccount db n tc tu) := by
  refine ⟨?_, rfl, ?_, ?_⟩
  · simp [post_accounts, create_account, runHandler, get_session,
          create_account_body, insertAccount, parseAccount, openSession,
          noFail, mkDefaultAccount, Session.commit, Session.close]
  · simpa [mkDefaultAccount] using h
  · have hfresh := findAccount_fresh db
    simp only [findAccount, insertAccountRow] at hfresh ⊢
    simp [List.find?_append, hfresh, mkDefaultAccount]

/-- Witness for C8 (amended) with clock readings 3 then 5 on the empty
store. -/
theorem created_account_defaults_witness :
    post_accounts emptyDB noFail { name := "Test" } 3 5 =
      (.ok (mkDefaultAccount emptyDB "Test" 3 5),
       insertAccountRow emptyDB (mkDefaultAccount emptyDB "Test" 3 5)) ∧
    (mkDefaultAccount emptyDB "Test" 3 5).status = "active" ∧
    findAccount (insertAccountRow emptyDB (mkDefaultAccount emptyDB "Test" 3 5))
        (nextAccountId emptyDB) = some (mkDefaultAccount emptyDB "Test" 3 5) :=
  ⟨(created_account_defaults emptyDB "Test" 3 5 (by decide)).1,
   (created_account_defaults emptyDB "Test" 3 5 (by decide)).2.1,
   (created_account_defaults emptyDB "Test" 3 5 (by decide)).2.2.2⟩

end PAM
